import Mathlib

/-
Verification of the sf-agent orchestration core against its design notes.

The Python sources are shallowly embedded:
  * JSON-like payloads become the inductive type `JValue`;
  * dictionary access that can raise (`.get` on a non-dict, `d[k] = v` on a
    non-dict, `in` on a non-container) returns `Except PyErr _`;
  * floats (prices, confidences, timestamps) are modelled as `ℚ`;
  * the LLM, the embedding model and the Qdrant vector store are oracles
    passed in as function arguments.
-/

set_option maxHeartbeats 1000000

/-- Python exception kinds that the embedded code can raise. -/
inductive PyErr where
  | attributeError
  | typeError
  | indexError
deriving DecidableEq, Repr

/-- A JSON-like Python value: None, bool, number, string, list or dict.
Dicts are association lists with (by construction) unique keys. -/
inductive JValue where
  | null
  | bool (b : Bool)
  | num (q : ℚ)
  | str (s : String)
  | arr (xs : List JValue)
  | obj (kvs : List (String × JValue))
deriving Repr

mutual

/-- Structural equality of values, standing in for Python `==`.  For dicts it
compares fields in order; Python's order-insensitive dict equality is only
reachable here through list membership of dicts, which no code path in this
repository exercises. -/
def jbeq : JValue → JValue → Bool
  | .null, .null => true
  | .bool a, .bool b => a == b
  | .num a, .num b => a == b
  | .str a, .str b => a == b
  | .arr a, .arr b => jbeqList a b
  | .obj a, .obj b => jbeqObj a b
  | _, _ => false

/-- Elementwise equality of value lists. -/
def jbeqList : List JValue → List JValue → Bool
  | [], [] => true
  | x :: xs, y :: ys => jbeq x y && jbeqList xs ys
  | _, _ => false

/-- Elementwise equality of dict entry lists. -/
def jbeqObj : List (String × JValue) → List (String × JValue) → Bool
  | [], [] => true
  | (k1, v1) :: xs, (k2, v2) :: ys => k1 == k2 && jbeq v1 v2 && jbeqObj xs ys
  | _, _ => false

end

instance : BEq JValue := ⟨jbeq⟩

/-- Python truthiness of a value (`if x:`). -/
def truthy : JValue → Bool
  | .null => false
  | .bool b => b
  | .num q => !(q == 0)
  | .str s => !(s == "")
  | .arr xs => !xs.isEmpty
  | .obj kvs => !kvs.isEmpty

/-- First-match association-list lookup (Python dict lookup; keys are unique). -/
def lookupJ : List (String × JValue) → String → Option JValue
  | [], _ => none
  | (k, v) :: rest, key => if k == key then some v else lookupJ rest key

/-- Whether a value is a dict (`isinstance(x, dict)`). -/
def JValue.isObj : JValue → Bool
  | .obj _ => true
  | _ => false

/-- Python `d.get(k, default)`: raises AttributeError when `d` is not a dict;
returns the stored value (which may be None) when the key exists, else the
default. -/
def jGetD : JValue → String → JValue → Except PyErr JValue
  | .obj kvs, k, d => .ok ((lookupJ kvs k).getD d)
  | _, _, _ => .error .attributeError

/-- Python `d.get(k)` (default None). -/
def jGet (v : JValue) (k : String) : Except PyErr JValue := jGetD v k .null

/-- The whitespace set of Python `str.strip()`. -/
def pyIsSpace (c : Char) : Bool :=
  c == ' ' || c == '\t' || c == '\n' || c == '\r' || c == '\x0b' || c == '\x0c'

/-- Python `str.strip()` at character level (String.trim does not reduce in
the kernel). -/
def strTrim (s : String) : String :=
  .mk (((s.data.dropWhile pyIsSpace).reverse.dropWhile pyIsSpace).reverse)

/-- Python `str.lower()` at character level (ASCII, like String.toLower). -/
def strLower (s : String) : String := .mk (s.data.map Char.toLower)

/-- Python `str.split(sep)` for a one-character separator, at character
level; empty segments are kept, as in Python. -/
def splitOnChar (sep : Char) (s : String) : List String :=
  (s.data.splitOn sep).map String.mk

/-- Substring test used by Python `needle in haystack` on strings. -/
def strContains (s pat : String) : Bool :=
  decide (pat.data <:+: s.data)

/-- Python `key in container`: key lookup on dicts, substring on strings,
membership on lists, TypeError elsewhere.  List membership compares values
structurally; dict values inside lists would compare field-order sensitively,
a case no code path in this repository exercises. -/
def pyIn (key : String) (v : JValue) : Except PyErr Bool :=
  match v with
  | .obj kvs => .ok (lookupJ kvs key).isSome
  | .str s => .ok (strContains s key)
  | .arr xs => .ok (xs.contains (.str key))
  | _ => .error .typeError

/-- Replace the value of an existing key in place, else append the pair
(Python dict assignment ordering). -/
def setKV : List (String × JValue) → String → JValue → List (String × JValue)
  | [], k, v => [(k, v)]
  | (k0, v0) :: rest, k, v =>
    if k0 == k then (k, v) :: rest else (k0, v0) :: setKV rest k v

/-- Python `d[k] = v`: TypeError when `d` does not support item assignment. -/
def jSet : JValue → String → JValue → Except PyErr JValue
  | .obj kvs, k, v => .ok (.obj (setKV kvs k v))
  | _, _, _ => .error .typeError

/-- Total `d.get(k, default)` for places where the receiver is a dict by
construction (the normalizer's `normalized_message` after its isinstance
coercion). On a non-dict it returns the default, a case that cannot occur. -/
def objGetD (v : JValue) (k : String) (d : JValue) : JValue :=
  match v with
  | .obj kvs => (lookupJ kvs k).getD d
  | _ => d

/-- Total `k in d` for receivers that are dicts by construction. -/
def hasKeyJ (v : JValue) (k : String) : Bool :=
  match v with
  | .obj kvs => (lookupJ kvs k).isSome
  | _ => false

/-- Total `d[k] = v` for receivers that are dicts by construction. -/
def setKey (v : JValue) (k : String) (x : JValue) : JValue :=
  match v with
  | .obj kvs => .obj (setKV kvs k x)
  | w => w

/-- Python `str(x)` as used in f-strings.  Strings pass through unchanged;
number, list and dict representations are approximated (no claim depends on
their exact spelling, only on string identifiers, which are exact). -/
def pyStr : JValue → String
  | .null => "None"
  | .bool true => "True"
  | .bool false => "False"
  | .num q => toString q
  | .str s => s
  | .arr _ => "[...]"
  | .obj _ => "{...}"

/-- Python `.lower()`: AttributeError on a non-string. -/
def pyLower : JValue → Except PyErr String
  | .str s => .ok (strLower s)
  | _ => .error .attributeError

/-- Python `.strip()`: AttributeError on a non-string. -/
def pyStrip : JValue → Except PyErr String
  | .str s => .ok (strTrim s)
  | _ => .error .attributeError

/-- Python `for x in v`: list elements, characters of a string, keys of a
dict; TypeError on non-iterables. -/
def toIter : JValue → Except PyErr (List JValue)
  | .arr xs => .ok xs
  | .str s => .ok (s.toList.map (fun c => .str c.toString))
  | .obj kvs => .ok (kvs.map (fun e => .str e.1))
  | _ => .error .typeError

/-- Keys of a dict value, in order ([] for non-dicts). -/
def objKeys : JValue → List String
  | .obj kvs => kvs.map (fun e => e.1)
  | _ => []

/-! ## kapso/utils.py — webhook normalizer and raw id extraction -/

/-- The pure normalization of `message` (utils.py lines 68-88): fill
`message_type` from a raw `type` field, and for text messages fill a missing
`content` from `text.body`.  The receiver is a dict by construction (the
isinstance coercion at lines 60-61 ran first). -/
def normalizeMessageFields (message_data : JValue) : JValue :=
  let nm := message_data
  let nm := if !(hasKeyJ nm "message_type") && hasKeyJ nm "type" then
      setKey nm "message_type" (objGetD nm "type" .null)
    else nm
  if !(hasKeyJ nm "content") then
    let msg_type := objGetD nm "message_type" (.str "")
    if jbeq msg_type (.str "text") then
      let text_data := objGetD nm "text" (.obj [])
      if text_data.isObj then
        setKey nm "content" (objGetD text_data "body" (.str ""))
      else nm
    else nm
  else nm

/-- `phone_number_id = item.get("phone_number_id") or
conversation_data.get("phone_number_id")` (utils.py line 93), with Python's
short-circuit: the second `.get` (which raises on a non-dict conversation)
only runs when the first value is falsy. -/
def pniOf (item conversation_data : JValue) : Except PyErr JValue := do
  let pni_item ← jGet item "phone_number_id"
  if truthy pni_item then pure pni_item
  else jGet conversation_data "phone_number_id"

/-- The conversation-id backfill from `batch_info` (utils.py lines 96-97);
`item.get("batch_info", {})` is evaluated twice, as in the source. -/
def convFixup (item conversation_data : JValue) : Except PyErr JValue := do
  let has_id ← pyIn "id" conversation_data
  if !has_id then do
    let batch_info ← jGetD item "batch_info" (.obj [])
    let has_conv ← pyIn "conversation_id" batch_info
    if has_conv then do
      let batch_info2 ← jGetD item "batch_info" (.obj [])
      let conv_id ← jGet batch_info2 "conversation_id"
      jSet conversation_data "id" conv_id
    else pure conversation_data
  else pure conversation_data

/-- The `whatsapp_config` coercion and display-number backfill (utils.py
lines 100-105). -/
def wcdFixup (whatsapp_config_data phone_number_id : JValue) : Except PyErr JValue := do
  let wcd := if !(truthy whatsapp_config_data) then JValue.obj [] else whatsapp_config_data
  let has_dpn ← pyIn "display_phone_number_normalized" wcd
  if !has_dpn && truthy phone_number_id then
    jSet wcd "display_phone_number_normalized" (.str (pyStr phone_number_id))
  else pure wcd

/-- The `whatsapp_config_id` fallback chain on the conversation (utils.py
lines 108-112). -/
def wciFixup (conversation_data wcd phone_number_id : JValue) : Except PyErr JValue := do
  let has_wci ← pyIn "whatsapp_config_id" conversation_data
  if !has_wci then
    if truthy phone_number_id then jSet conversation_data "whatsapp_config_id" phone_number_id
    else do
      let cfg_id ← jGet wcd "id"
      if truthy cfg_id then jSet conversation_data "whatsapp_config_id" cfg_id
      else pure conversation_data
  else pure conversation_data

/-- One iteration of the normalizer loop of `normalize_kapso_webhook`
(utils.py lines 58-126).  `item.get(...)` on a non-dict item raises; the
`message` value is coerced to an empty dict when it is not a dict, while
`conversation` / `whatsapp_config` / `batch_info` are used as found, so a
non-dict there raises exactly where Python would. -/
def normalizeItem (item : JValue) : Except PyErr JValue := do
  let message_data ← jGetD item "message" (.obj [])
  let message_data := if message_data.isObj then message_data else .obj []
  let conversation_data ← jGetD item "conversation" (.obj [])
  let whatsapp_config_data ← jGetD item "whatsapp_config" (.obj [])
  let is_new_conversation ← jGetD item "is_new_conversation" (.bool false)
  let nm := normalizeMessageFields message_data
  let phone_number_id ← pniOf item conversation_data
  let conversation_data ← convFixup item conversation_data
  let wcd ← wcdFixup whatsapp_config_data phone_number_id
  let conversation_data ← wciFixup conversation_data wcd phone_number_id
  pure (.obj [("message", nm), ("conversation", conversation_data),
    ("whatsapp_config", wcd), ("is_new_conversation", is_new_conversation),
    ("phone_number_id", phone_number_id)])

/-- The normalizer's accumulation loop: one normalized entry per data item,
any exception propagating out of the whole call. -/
def normalizeItems : List JValue → Except PyErr (List JValue)
  | [] => .ok []
  | item :: rest => do
    let n ← normalizeItem item
    let ns ← normalizeItems rest
    pure (n :: ns)

/-- `normalize_kapso_webhook` (utils.py lines 18-129): empty list for a falsy
payload or a falsy/missing `data` list, else one normalized entry per item. -/
def normalize_kapso_webhook (webhook_data : JValue) : Except PyErr (List JValue) :=
  if !(truthy webhook_data) then .ok []
  else do
    let data_list ← jGetD webhook_data "data" (.arr [])
    if !(truthy data_list) then .ok []
    else do
      let items ← toIter data_list
      normalizeItems items

/-- Loop body of `extract_message_ids_from_webhook`: the raw internal
`message.id` value of each item whose `message` is a dict, unprefixed. -/
def extractIdsLoop : List JValue → Except PyErr (List JValue)
  | [] => .ok []
  | item :: rest => do
    let message_data ← jGetD item "message" (.obj [])
    let ids ← extractIdsLoop rest
    pure (match message_data with
      | .obj mvs =>
        let msg_id := (lookupJ mvs "id").getD .null
        if truthy msg_id then msg_id :: ids else ids
      | _ => ids)

/-- `extract_message_ids_from_webhook` (utils.py lines 132-152).  This is the
extraction the webhook gate actually calls. -/
def extract_message_ids_from_webhook (webhook_data : JValue) : Except PyErr (List JValue) := do
  let data_list ← jGetD webhook_data "data" (.arr [])
  let items ← toIter data_list
  extractIdsLoop items

/-! ## kapso/message_deduplicator.py — TTL-bounded dedup cache -/

/-- In-memory dedup cache: `processed_messages` maps a key to the timestamp
at which it was marked, `ttl_seconds` is the expiry window.  Keys are the raw
values the gate extracts (strings in practice); timestamps are `time.time()`
floats modelled as `ℚ`.  The `threading.Lock` makes each operation atomic;
the interleaving model below makes that atomicity explicit. -/
structure DedupState where
  ttl_seconds : ℚ
  processed_messages : List (JValue × ℚ)

/-- Python dict assignment `processed_messages[id] = now`: refresh the entry
in place when the key exists, else append it. -/
def set_timestamp (l : List (JValue × ℚ)) (k : JValue) (now : ℚ) : List (JValue × ℚ) :=
  if l.any (fun e => e.1 == k) then
    l.map (fun e => if e.1 == k then (e.1, now) else e)
  else l ++ [(k, now)]

/-- `MessageDeduplicator._cleanup_expired_entries`: drop entries strictly
older than the TTL. -/
def cleanup_expired_entries (s : DedupState) (now : ℚ) : DedupState :=
  { s with processed_messages :=
      s.processed_messages.filter (fun e => decide (now - e.2 ≤ s.ttl_seconds)) }

/-- `MessageDeduplicator.are_messages_already_processed`: false on an empty
key list; otherwise purge expired entries, then report whether any key is
present.  Returns the updated state because the purge mutates the cache. -/
def are_messages_already_processed (s : DedupState) (message_ids : List JValue)
    (now : ℚ) : Bool × DedupState :=
  if message_ids.isEmpty then (false, s)
  else
    let s2 := cleanup_expired_entries s now
    (message_ids.any (fun id => s2.processed_messages.any (fun e => e.1 == id)), s2)

/-- `MessageDeduplicator.mark_messages_as_processed`: record every key with
the current timestamp, creating or refreshing entries. -/
def mark_messages_as_processed (s : DedupState) (message_ids : List JValue)
    (now : ℚ) : DedupState :=
  if message_ids.isEmpty then s
  else { s with processed_messages :=
      message_ids.foldl (fun l id => set_timestamp l id now) s.processed_messages }

/-- Loop body of `MessageDeduplicator.extract_message_ids`: up to two
prefixed keys per message (`wa:` + provider id, `kapso:` + internal id). -/
def dedupExtractLoop : List JValue → Except PyErr (List String)
  | [] => .ok []
  | item :: rest => do
    let message ← jGetD item "message" (.obj [])
    let whatsapp_id ← jGet message "whatsapp_message_id"
    let internal_id ← jGet message "id"
    let ids ← dedupExtractLoop rest
    pure ((if truthy whatsapp_id then ["wa:" ++ pyStr whatsapp_id] else []) ++
          (if truthy internal_id then ["kapso:" ++ pyStr internal_id] else []) ++ ids)

namespace MessageDeduplicator

/-- `MessageDeduplicator.extract_message_ids` (message_deduplicator.py lines
36-69): the whole body is wrapped in a catch-all that returns [].  This
prefixed extraction exists on the class but is never called by the gate. -/
def extract_message_ids (webhook_data : JValue) : List String :=
  match (do
    let data_list ← jGetD webhook_data "data" (.arr [])
    let items ← toIter data_list
    dedupExtractLoop items : Except PyErr (List String)) with
  | .ok ids => ids
  | .error _ => []

end MessageDeduplicator

/-! ## kapso/use_kapso.py — webhook gate and response handler -/

/-- Routing outcome of one webhook delivery through `use_kapso`'s
dedup gate (use_kapso.py lines 18-56), stopping at the point where the
delivery would enter `handle_response`. -/
inductive KapsoOutcome where
  | ignored
  | no_data
  | duplicate (message_ids : List JValue)
  | routed (data_list : List JValue)
  | errored

/-- The gate portion of `use_kapso`: normalize, extract raw ids with
`extract_message_ids_from_webhook`, short-circuit when some id is already
cached, else mark all ids and route into the handler.  The surrounding
`try/except` turns any exception into an error response with the cache
unchanged (no cache mutation precedes a raising step here). -/
def use_kapso (webhook_data : JValue) (s : DedupState) (now : ℚ) :
    KapsoOutcome × DedupState :=
  match (do
    let webhook_type ← jGetD webhook_data "type" (.str "unknown")
    if jbeq webhook_type (.str "whatsapp.message.received") then do
      let data_list ← normalize_kapso_webhook webhook_data
      if data_list.isEmpty then pure (KapsoOutcome.no_data, s)
      else do
        let message_ids ← extract_message_ids_from_webhook webhook_data
        let checked := if message_ids.isEmpty then (false, s)
          else are_messages_already_processed s message_ids now
        if !message_ids.isEmpty && checked.1 then
          pure (KapsoOutcome.duplicate message_ids, checked.2)
        else
          pure (KapsoOutcome.routed data_list,
            mark_messages_as_processed checked.2 message_ids now)
    else pure (KapsoOutcome.ignored, s) : Except PyErr (KapsoOutcome × DedupState)) with
  | .ok r => r
  | .error _ => (.errored, s)

/-! ### Interleaving model of two concurrent deliveries

Each lock-protected cache operation is one atomic step; a schedule lists
which delivery performs the next step.  A delivery runs the `use_kapso`
check-then-mark sequence: first `are_messages_already_processed`, then (when
the check said new) `mark_messages_as_processed` followed by routing into
the handler. -/

/-- Program counter of one webhook delivery at the gate. -/
inductive DeliveryPc where
  | start
  | checked (dup : Bool)
  | finished (routed : Bool)
deriving DecidableEq, Repr

/-- State of two concurrent deliveries sharing the dedup cache. -/
structure TwoDeliveries where
  cache : DedupState
  pc1 : DeliveryPc
  pc2 : DeliveryPc

/-- One atomic step of a delivery: perform the `already_processed` check
(use_kapso.py line 41), or act on its result — a duplicate stops, a fresh
delivery marks its keys and is routed (lines 52-54). -/
def deliveryStep (keys : List JValue) (now : ℚ) :
    DeliveryPc → DedupState → DeliveryPc × DedupState
  | .start, c =>
    let checked := if keys.isEmpty then (false, c)
      else are_messages_already_processed c keys now
    (.checked (!keys.isEmpty && checked.1), checked.2)
  | .checked true, c => (.finished false, c)
  | .checked false, c => (.finished true, mark_messages_as_processed c keys now)
  | .finished r, c => (.finished r, c)

/-- Run a schedule: `true` steps delivery 1, `false` steps delivery 2. -/
def runSchedule (keys : List JValue) (now : ℚ) :
    List Bool → TwoDeliveries → TwoDeliveries
  | [], sys => sys
  | tid :: rest, sys =>
    let sys2 :=
      if tid then
        let r := deliveryStep keys now sys.pc1 sys.cache
        { sys with pc1 := r.1, cache := r.2 }
      else
        let r := deliveryStep keys now sys.pc2 sys.cache
        { sys with pc2 := r.1, cache := r.2 }
    runSchedule keys now rest sys2

/-! ## api/models.py — pydantic data model -/

/-- `Constraints` (api/models.py): all fields optional, prices non-negative
floats modelled as `ℚ`. -/
structure Constraints where
  category : Option String := none
  price_min : Option ℚ := none
  price_max : Option ℚ := none
  color : Option String := none
  size : Option String := none
  brand : Option String := none
  notes : Option String := none
deriving DecidableEq, Repr

/-- `ProductCard` (api/models.py). -/
structure ProductCard where
  product_id : String
  title : String
  brand : Option String := none
  category : Option String := none
  price : ℚ
  colors : List String := []
  sizes : List String := []
  image_url : Option String := none
  why : Option String := none
deriving DecidableEq, Repr

/-- `ConversationalResponse` (api/models.py). -/
structure ConversationalResponse where
  response : String
  items : List ProductCard
deriving DecidableEq, Repr

/-- Modelled from the spec: `IntentClassification` is imported by
demo/api/langgraph_agents.py from a models module whose file is not in the
source tree; its fields follow the spec's `Intent` record and every call
site (`intent_type`, `confidence`, `reasoning`, `extracted_keywords`,
`inferred_constraints`). -/
structure IntentClassification where
  intent_type : String
  confidence : ℚ
  reasoning : String := ""
  extracted_keywords : List String := []
  inferred_constraints : Constraints := {}
deriving DecidableEq, Repr

/-- Modelled from the spec: `ProductIdeas` is imported by
demo/api/langgraph_agents.py from the same missing models module; its fields
follow the spec's `SearchPlan` and every call site (`product_types`,
`search_queries`, `user_context`). -/
structure ProductIdeas where
  product_types : List String
  search_queries : List String
  user_context : String
deriving DecidableEq, Repr

/-- Python truthiness of an optional string field (None and "" are falsy). -/
def strTruthy : Option String → Bool
  | none => false
  | some s => !(s == "")

/-- Python truthiness of an optional number field (None and 0 are falsy). -/
def numTruthy : Option ℚ → Bool
  | none => false
  | some q => !(q == 0)

/-! ## kapso/use_kapso.py — handle_response -/

/-- Reply text assembled for the product-detail follow-up message
(use_kapso.py lines 152-154); number formatting is approximated, no claim
depends on it. -/
def products_text (items : List ProductCard) : String :=
  (items.take 3).foldl
    (fun acc item =>
      acc ++ "*" ++ item.title ++ "*\nPrecio: $" ++ toString item.price ++ "\n" ++
        (item.why.getD "None") ++ "\n\n")
    "Encontré estos productos:\n\n"

/-- One iteration of the message-combining loop (use_kapso.py lines 93-110):
`none` when the message is dropped (filtered type, or content empty after
strip), `some content` when it contributes to the combined query. -/
def msgPart (data : JValue) : Except PyErr (Option String) := do
  let message_data ← jGetD data "message" (.obj [])
  let _msg_id ← jGet message_data "id"
  let mt_raw ← jGetD message_data "message_type" (.str "")
  let message_type ← pyLower mt_raw
  let content_raw ← jGetD message_data "content" (.str "")
  let message_content ← if truthy content_raw then pyStrip content_raw else pure ""
  if message_type == "reaction" || message_type == "sticker" || message_type == "image" then
    pure none
  else if !(message_content == "") then pure (some message_content)
  else pure none

/-- The combining loop over the whole batch, in order. -/
def collectParts : List JValue → Except PyErr (List String)
  | [] => .ok []
  | d :: ds => do
    let p ← msgPart d
    let rest ← collectParts ds
    pure (match p with | some s => s :: rest | none => rest)

/-- Result of `handle_response`, with the externally visible effects made
explicit: whether the agent was consulted and which reply texts were handed
to the outbound WhatsApp client. -/
structure HandleResult where
  status : String
  message : String
  agent_invoked : Bool
  replies : List String
deriving DecidableEq, Repr

/-- `handle_response` (use_kapso.py lines 64-169).  The agent and the
outbound client are oracles; read-marking of inbound messages is an
outbound side effect that does not influence the result and is elided.
An agent exception is caught and logged, after which the handler still
returns success (lines 160-163). -/
def handle_response (data_list : List JValue) (env_is_staging : Bool)
    (agentFn : String → Except Unit ConversationalResponse) :
    Except PyErr HandleResult := do
  let first_data ← match data_list with
    | [] => Except.error PyErr.indexError
    | d :: _ => Except.ok d
  let conversation ← jGetD first_data "conversation" (.obj [])
  let wcfg ← jGetD first_data "whatsapp_config" (.obj [])
  let reached0 ← jGet wcfg "display_phone_number_normalized"
  let _reached := if reached0 == JValue.null && env_is_staging
    then JValue.str "56920403095" else reached0
  let _phone_number ← jGet conversation "phone_number"
  let whatsapp_conversation_id ← jGet conversation "id"
  let _contact_name ← jGetD conversation "contact_name" (.str "Usuario")
  let wci0 ← jGet conversation "whatsapp_config_id"
  let wci1 ← if !(truthy wci0) then jGet first_data "phone_number_id" else pure wci0
  let _whatsapp_config_id := if !(truthy wci1) then JValue.str "UNKNOWN_CONFIG" else wci1
  let parts ← collectParts data_list
  let combined_message := String.intercalate " " parts
  if combined_message == "" then
    pure { status := "success", message := "Mensajes sin contenido omitidos",
           agent_invoked := false, replies := [] }
  else
    -- mark_whatsapp_messages_as_read_batch: outbound only, wrapped in try
    if truthy whatsapp_conversation_id then
      match agentFn combined_message with
      | .ok resp =>
        pure { status := "success", message := "Respuesta enviada",
               agent_invoked := true,
               replies := [resp.response] ++
                 (if !resp.items.isEmpty then [products_text resp.items] else []) }
      | .error _ =>
        pure { status := "success", message := "Respuesta enviada",
               agent_invoked := true, replies := [] }
    else
      pure { status := "success", message := "Respuesta enviada",
             agent_invoked := false, replies := [] }

/-! ## demo/api/langgraph_agents.py — retrieval, notification, workflow -/

/-- The `colors`/`sizes` payload fields arrive either as a
delimiter-joined string or a native list. -/
inductive StrOrStrs where
  | joined (v : String)
  | listed (v : List String)
deriving DecidableEq, Repr

/-- Payload of one vector-store hit, with the fields `search_rag` reads.
Absent fields are `none`; `price` is numeric when present (external
interface contract). -/
structure Payload where
  product_id : Option String := none
  title : Option String := none
  brand : Option String := none
  category : Option String := none
  price : Option ℚ := none
  colors : Option StrOrStrs := none
  sizes : Option StrOrStrs := none
  image_url : Option String := none
deriving DecidableEq, Repr

/-- One vector-store hit: `id` is `str(hit.id)`, the point id. -/
structure Hit where
  id : String
  payload : Payload
deriving DecidableEq, Repr

/-- `payload.get("colors") or []` followed by the split/strip/filter
normalization (langgraph_agents.py lines 366-371). -/
def normalize_str_list : Option StrOrStrs → List String
  | none => []
  | some (.joined s) =>
    if s == "" then []
    else ((splitOnChar ';' s).map strTrim).filter (fun c => !(c == ""))
  | some (.listed xs) => xs

/-- One vector-store filter condition. -/
inductive MatchVal where
  | boolean (b : Bool)
  | string (s : String)
deriving DecidableEq, Repr

/-- A Qdrant `FieldCondition`: equality match or price range. -/
inductive Condition where
  | field_match (key : String) (value : MatchVal)
  | field_range (key : String) (gte : Option ℚ) (lte : Option ℚ)
deriving DecidableEq, Repr

/-- The structured filter built from `Constraints`: `_build_filter`
(agent/ask_agent.py lines 22-47), identical to the inline construction in
`search_rag` (langgraph_agents.py lines 309-342).  Conditions are appended
in source order; both price bounds are copied verbatim into the range. -/
def build_filter (constraints : Constraints) : List Condition :=
  let must := [Condition.field_match "in_stock" (.boolean true)]
  let must := if strTruthy constraints.category then
      must ++ [Condition.field_match "category" (.string (constraints.category.getD ""))]
    else must
  let must := if strTruthy constraints.brand then
      must ++ [Condition.field_match "brand" (.string (constraints.brand.getD ""))]
    else must
  let must := if strTruthy constraints.color then
      must ++ [Condition.field_match "colors" (.string (constraints.color.getD ""))]
    else must
  let must := if strTruthy constraints.size then
      must ++ [Condition.field_match "sizes" (.string (constraints.size.getD ""))]
    else must
  let must := if constraints.price_min.isSome || constraints.price_max.isSome then
      must ++ [Condition.field_range "price" constraints.price_min constraints.price_max]
    else must
  must

/-- The per-item rationale of `search_rag` (lines 373-380): category match,
then budget, else the generic fallback. -/
def build_why (constraints : Constraints) (p : Payload) : String :=
  let why_parts : List String := []
  let why_parts := if strTruthy constraints.category && p.category == constraints.category then
      why_parts ++ ["Matches " ++ constraints.category.getD ""]
    else why_parts
  let why_parts := if numTruthy constraints.price_max &&
      decide (p.price.getD 0 ≤ constraints.price_max.getD 0) then
      why_parts ++ ["Within budget ($" ++ toString (constraints.price_max.getD 0) ++ ")"]
    else why_parts
  let why_parts := if why_parts.isEmpty then ["Relevant to your search"] else why_parts
  String.intercalate "; " why_parts

/-- The `ProductCard` built for one retained hit (lines 382-394). -/
def make_card (constraints : Constraints) (h : Hit) (product_id : String) : ProductCard :=
  { product_id := product_id
  , title := h.payload.title.getD "Unknown Product"
  , brand := h.payload.brand
  , category := h.payload.category
  , price := h.payload.price.getD 0
  , colors := normalize_str_list h.payload.colors
  , sizes := normalize_str_list h.payload.sizes
  , image_url := h.payload.image_url
  , why := some (build_why constraints h.payload) }

/-- The inner hit loop of `search_rag` (lines 359-397): skip already-seen
product ids, append a card for each new one, and `break` — out of this inner
loop only — once the running total reaches 8. -/
def merge_hits (constraints : Constraints) :
    List Hit → List String → List ProductCard → List String × List ProductCard
  | [], seen, acc => (seen, acc)
  | h :: rest, seen, acc =>
    let product_id := h.payload.product_id.getD h.id
    if seen.contains product_id then merge_hits constraints rest seen acc
    else
      let seen2 := product_id :: seen
      let acc2 := acc ++ [make_card constraints h product_id]
      if 8 ≤ acc2.length then (seen2, acc2)
      else merge_hits constraints rest seen2 acc2

/-- The outer query loop of `search_rag` (lines 348-400): one embedding +
vector search per query (the oracle `search` covers both, and an exception
anywhere in the body skips that query), results merged in plan order. -/
def search_loop (constraints : Constraints)
    (search : String → List Condition → Except Unit (List Hit))
    (filt : List Condition) :
    List String → List String → List ProductCard → List String × List ProductCard
  | [], seen, acc => (seen, acc)
  | q :: rest, seen, acc =>
    match search q filt with
    | .error _ => search_loop constraints search filt rest seen acc
    | .ok hits =>
      let r := merge_hits constraints hits seen acc
      search_loop constraints search filt rest r.1 r.2

/-- Query selection at the top of `search_rag` (lines 293-307): the Creative
Agent's queries for contextual intent with ideas present, the extracted
keywords (or the raw query when they are empty) for direct search, `none`
(off-topic short-circuit) otherwise. -/
def selected_queries (intent : IntentClassification) (product_ideas : Option ProductIdeas)
    (raw_query : String) : Option (List String) :=
  if intent.intent_type == "contextual_use_case" && product_ideas.isSome then
    some ((product_ideas.map ProductIdeas.search_queries).getD [])
  else if intent.intent_type == "direct_product_search" then
    some (if intent.extracted_keywords.isEmpty then [raw_query] else intent.extracted_keywords)
  else none

/-- The fixed redirect message of the off-topic branch (lines 306 and 539). -/
def off_topic_message : String :=
  "I\x27m here to help you find products! Please ask about items you\x27d like to purchase."

/-- The zero-result response message (line 409). -/
def no_results_message : String :=
  "I couldn\x27t find products matching your criteria. Try adjusting your preferences!"

/-- `search_rag` (langgraph_agents.py lines 284-418): returns the state
update `(final_products, response_message)`. -/
def search_rag (intent : IntentClassification) (product_ideas : Option ProductIdeas)
    (raw_query : String)
    (search : String → List Condition → Except Unit (List Hit)) :
    List ProductCard × String :=
  match selected_queries intent product_ideas raw_query with
  | none => ([], off_topic_message)
  | some search_queries =>
    let constraints := intent.inferred_constraints
    let qdrant_filter := build_filter constraints
    let r := search_loop constraints search qdrant_filter (search_queries.take 3) [] []
    let all_products := r.2
    let response_msg :=
      if all_products.isEmpty then no_results_message
      else match product_ideas with
        | some pi =>
          if intent.intent_type == "contextual_use_case" then
            "Based on your interest in " ++ strLower pi.user_context ++
              ", here are some great options!"
          else "I found " ++ toString all_products.length ++ " products matching your search!"
        | none =>
          "I found " ++ toString all_products.length ++ " products matching your search!"
    (all_products, response_msg)

/-- The eligibility decision of `send_notification` (lines 439-448): notify
iff products were found, an intent exists, its confidence is at least 0.6
and it is not off-topic.  The node's only state update is this boolean. -/
def send_notification (final_products : List ProductCard)
    (intent : Option IntentClassification) : Bool :=
  decide (0 < final_products.length) &&
    (match intent with
     | none => false
     | some i => decide ((0.6 : ℚ) ≤ i.confidence) && !(i.intent_type == "off_topic"))

/-- The fallback intent of `classify_intent` (lines 160-171). -/
def fallback_intent (raw_query : String) : IntentClassification :=
  { intent_type := "direct_product_search", confidence := 0.5
  , reasoning := "Fallback classification due to error"
  , extracted_keywords := [raw_query], inferred_constraints := {} }

/-- `classify_intent` with the LLM call as an oracle: its parsed output on
success, the deterministic fallback when the call or the parse fails. -/
def classify_intent (llm : Except Unit IntentClassification)
    (raw_query : String) : IntentClassification :=
  match llm with
  | .ok intent => intent
  | .error _ => fallback_intent raw_query

/-- The fallback plan of `generate_ideas` (lines 270-279). -/
def fallback_ideas (raw_query : String) : ProductIdeas :=
  { product_types := ["general"], search_queries := [raw_query]
  , user_context := "General product search" }

/-- `generate_ideas` with the LLM call as an oracle. -/
def generate_ideas (llm : Except Unit ProductIdeas) (raw_query : String) : ProductIdeas :=
  match llm with
  | .ok ideas => ideas
  | .error _ => fallback_ideas raw_query

/-- `route_after_intent` (lines 521-532): the conditional edge after
classification; anything neither contextual nor direct goes to the
off-topic terminal. -/
def route_after_intent (intent : IntentClassification) : String :=
  if intent.intent_type == "contextual_use_case" then "generate_ideas"
  else if intent.intent_type == "direct_product_search" then "search_rag"
  else "off_topic_end"

/-- Terminal artifact of one workflow run. -/
structure WorkflowFinal where
  final_products : List ProductCard
  response_message : String
  notification_sent : Bool
  intent : IntentClassification
deriving DecidableEq, Repr

/-- One run of the compiled graph (`create_agent_graph` + `run_agent_workflow`):
classify, route, optionally generate ideas, retrieve, decide notification;
the off-topic terminal bypasses retrieval and notification
(`off_topic_handler`, lines 535-541). -/
def run_agent_workflow (classifier : Except Unit IntentClassification)
    (idea_llm : Except Unit ProductIdeas)
    (search : String → List Condition → Except Unit (List Hit))
    (raw_query : String) : WorkflowFinal :=
  let intent := classify_intent classifier raw_query
  if route_after_intent intent == "generate_ideas" then
    let ideas := generate_ideas idea_llm raw_query
    let r := search_rag intent (some ideas) raw_query search
    { final_products := r.1, response_message := r.2
    , notification_sent := send_notification r.1 (some intent), intent := intent }
  else if route_after_intent intent == "search_rag" then
    let r := search_rag intent none raw_query search
    { final_products := r.1, response_message := r.2
    , notification_sent := send_notification r.1 (some intent), intent := intent }
  else
    { final_products := [], response_message := off_topic_message
    , notification_sent := false, intent := intent }

/-! ## Shape predicates used by the theorem statements -/

/-- A dict field is absent or holds a dict. -/
def objOrAbsent (kvs : List (String × JValue)) (k : String) : Bool :=
  match lookupJ kvs k with
  | none => true
  | some v => v.isObj

/-- A data item on which the normalizer loop cannot raise: the item is a
mapping whose `conversation`, `whatsapp_config` and `batch_info` fields,
when present, are mappings.  The `message` field may be anything (the loop
coerces a non-dict message to an empty dict). -/
def good_item : JValue → Bool
  | .obj kvs => objOrAbsent kvs "conversation" && objOrAbsent kvs "whatsapp_config" &&
      objOrAbsent kvs "batch_info"
  | _ => false

/-- A normalizer result entry is well formed: a dict with exactly the five
canonical keys, in order. -/
def normalized_shape (r : Except PyErr JValue) : Bool :=
  match r with
  | .ok out => objKeys out == ["message", "conversation", "whatsapp_config",
      "is_new_conversation", "phone_number_id"]
  | .error _ => false

/-- The key the gate extraction derives from one data item: the raw internal
`message.id` value (no prefix), when the message is a dict and the id is
truthy. -/
def internal_id_of (item : JValue) : Option JValue :=
  match item with
  | .obj kvs =>
    (match (lookupJ kvs "message").getD (.obj []) with
     | .obj mvs =>
       let msg_id := (lookupJ mvs "id").getD .null
       if truthy msg_id then some msg_id else none
     | _ => none)
  | _ => none

/-- The prefixed keys `MessageDeduplicator.extract_message_ids` derives from
one data item: `wa:` + provider id and `kapso:` + internal id, each when
truthy. -/
def prefixed_keys_of (item : JValue) : List String :=
  match item with
  | .obj kvs =>
    (match (lookupJ kvs "message").getD (.obj []) with
     | .obj mvs =>
       let wa := (lookupJ mvs "whatsapp_message_id").getD .null
       let internal := (lookupJ mvs "id").getD .null
       (if truthy wa then ["wa:" ++ pyStr wa] else []) ++
         (if truthy internal then ["kapso:" ++ pyStr internal] else [])
     | _ => [])
  | _ => []

/-- A data item whose `message` field is absent or a dict. -/
def message_shape_ok : JValue → Bool
  | .obj kvs => objOrAbsent kvs "message"
  | _ => false

/-- A batch entry that `handle_response` drops: its message is a dict with
string (or absent) type and content fields, and either the lowercased type
is reaction, sticker or image, or the content is empty after stripping. -/
def droppable (data : JValue) : Bool :=
  match data with
  | .obj kvs =>
    (match (lookupJ kvs "message").getD (.obj []) with
     | .obj mvs =>
       (match (lookupJ mvs "message_type").getD (.str "") with
        | .str t =>
          (match (lookupJ mvs "content").getD (.str "") with
           | .str c =>
             decide (strLower t = "reaction" ∨ strLower t = "sticker" ∨
                 strLower t = "image") ||
               decide (strTrim c = "")
           | _ => false)
        | _ => false)
     | _ => false)
  | _ => false

/-- A batch entry whose header reads in `handle_response` cannot raise. -/
def header_ok (d : JValue) : Bool :=
  match d with
  | .obj kvs => objOrAbsent kvs "conversation" && objOrAbsent kvs "whatsapp_config"
  | _ => false

/-! ## Concrete inputs used by the counterexamples and witnesses -/

/-- A search oracle that always succeeds with zero candidates. -/
def empty_search : String → List Condition → Except Unit (List Hit) := fun _ _ => .ok []

/-- A search oracle that always fails. -/
def err_search : String → List Condition → Except Unit (List Hit) := fun _ _ => .error ()

/-- A direct-search intent with a single-query plan. -/
def c4_intent : IntentClassification :=
  { intent_type := "direct_product_search", confidence := 0.9, extracted_keywords := ["solo"] }

/-- An off-topic classification with high confidence. -/
def c7_classifier : Except Unit IntentClassification :=
  .ok { intent_type := "off_topic", confidence := 0.99, reasoning := "auto parts" }

/-- Constraints whose category is present but the empty string. -/
def c8_empty_category : Constraints := { category := some "" }

/-- Constraints with an always-empty price range (max below min). -/
def c8_inverted : Constraints := { price_min := some 50, price_max := some 10 }

/-- A batch entry carrying a sticker message (dropped by type). -/
def c10_item : JValue :=
  .obj [("message", .obj [("id", .str "m9"), ("message_type", .str "Sticker"),
    ("content", .str "hi")])]

/-- A distinct in-stock product payload per index. -/
def c1_payload (n : Nat) : Payload :=
  { product_id := some ("P" ++ toString n), title := some "Item", price := some 10 }

/-- A search oracle returning four fresh candidates for each of three
queries (the per-query limit of the vector search is 4). -/
def c1_search (q : String) (_filt : List Condition) : Except Unit (List Hit) :=
  if q == "alpha" then
    .ok [⟨"1", c1_payload 1⟩, ⟨"2", c1_payload 2⟩, ⟨"3", c1_payload 3⟩, ⟨"4", c1_payload 4⟩]
  else if q == "beta" then
    .ok [⟨"5", c1_payload 5⟩, ⟨"6", c1_payload 6⟩, ⟨"7", c1_payload 7⟩, ⟨"8", c1_payload 8⟩]
  else
    .ok [⟨"9", c1_payload 9⟩, ⟨"10", c1_payload 10⟩, ⟨"11", c1_payload 11⟩, ⟨"12", c1_payload 12⟩]

/-- A direct-search intent with a three-query plan. -/
def c1_intent : IntentClassification :=
  { intent_type := "direct_product_search", confidence := 0.9
  , extracted_keywords := ["alpha", "beta", "gamma"] }

/-- A payload whose `data` list holds a bare string instead of a mapping. -/
def c2_bad_item_payload : JValue :=
  .obj [("type", .str "whatsapp.message.received"), ("data", .arr [.str "bad"])]

/-- A perfectly parseable mapping payload whose `data` list is empty. -/
def c2_empty_data_payload : JValue :=
  .obj [("type", .str "whatsapp.message.received"), ("data", .arr [])]

/-- A raw-format single message missing every optional field except the
text body. -/
def c2_raw_item : JValue :=
  .obj [("message", .obj [("id", .str "m1"), ("type", .str "text"),
    ("text", .obj [("body", .str "hola")])])]

/-- A one-item data list of raw-format messages. -/
def c2_good_items : List JValue := [c2_raw_item]

/-- The webhook entries around `c2_good_items`. -/
def c2_good_kvs : List (String × JValue) :=
  [("type", .str "whatsapp.message.received"), ("data", .arr c2_good_items)]

/-- The single data item of the two-id webhook below. -/
def c3_data_items : List JValue :=
  [ .obj
      [ ("message", .obj [ ("whatsapp_message_id", .str "W1"), ("id", .str "I1")
                         , ("message_type", .str "text"), ("content", .str "hola") ])
      , ("conversation", .obj [("id", .str "c1")]) ] ]

/-- Entries of a webhook whose message carries both a provider-native id and
an internal id. -/
def c3_kvs : List (String × JValue) :=
  [("type", .str "whatsapp.message.received"), ("data", .arr c3_data_items)]

/-- A webhook whose message carries both a provider-native id and an
internal id. -/
def c3_webhook : JValue := .obj c3_kvs

/-- The keys of one webhook delivery in the race scenario. -/
def c9_keys : List JValue := [.str "I1"]

/-- Two deliveries about to enter the gate over a fresh 3600-second cache. -/
def c9_init : TwoDeliveries := ⟨⟨3600, []⟩, .start, .start⟩

/-! ## Theorems -/

/-- C1.  The Retrieval Engine's cap does not hold: on a three-query plan
whose queries return four fresh candidates each, `search_rag` returns 9
ProductCards.  The `break` at the cap (line 397, under the comment
"Max 8 products total") exits only the inner hit loop, so each later query
appends one more card before its own break fires. -/
theorem c1_cap_exceeded_on_concrete_plan :
    (search_rag c1_intent none "x" c1_search).1.length = 9 := by rfl

/-- C9.  The check-then-mark sequence is not a single critical section: with
the same key list, the interleaving that schedules both deliveries' checks
before either mark lets both deliveries pass the duplicate check, so both
are routed into the handler. -/
theorem c9_race_both_routed :
    (runSchedule c9_keys 0 [true, false, true, false] c9_init).pc1 = .finished true ∧
    (runSchedule c9_keys 0 [true, false, true, false] c9_init).pc2 = .finished true := by
  exact ⟨rfl, rfl⟩

/-! ### Monad and equality helper lemmas -/

/-- Binding a successful Except value applies the continuation. -/
theorem except_bind_ok {α β : Type} (a : α) (f : α → Except PyErr β) :
    (Except.ok a >>= f : Except PyErr β) = f a := rfl

mutual

/-- Structural value equality is reflexive. -/
theorem jbeq_refl : ∀ a, jbeq a a = true
  | .null => rfl
  | .bool b => by simp [jbeq]
  | .num q => by simp [jbeq]
  | .str s => by simp [jbeq]
  | .arr xs => by simp [jbeq, jbeqList_refl xs]
  | .obj kvs => by simp [jbeq, jbeqObj_refl kvs]

/-- List equality is reflexive. -/
theorem jbeqList_refl : ∀ xs : List JValue, jbeqList xs xs = true
  | [] => rfl
  | x :: xs => by simp [jbeqList, jbeq_refl x, jbeqList_refl xs]

/-- Dict-entry equality is reflexive. -/
theorem jbeqObj_refl : ∀ kvs : List (String × JValue), jbeqObj kvs kvs = true
  | [] => rfl
  | (k, v) :: kvs => by simp [jbeqObj, jbeq_refl v, jbeqObj_refl kvs]

end

/-- The BEq instance on values is reflexive. -/
theorem jvalue_beq_refl (a : JValue) : (a == a) = true := jbeq_refl a

/-- Lookup in an empty dict misses. -/
theorem lookupJ_nil (k : String) : lookupJ [] k = none := rfl

/-- An obj-or-absent field read with an empty-dict default is a dict. -/
theorem getD_obj_of_objOrAbsent (kvs : List (String × JValue)) (k : String)
    (h : objOrAbsent kvs k = true) :
    ∃ cvs, (lookupJ kvs k).getD (.obj []) = .obj cvs := by
  simp only [objOrAbsent] at h
  cases hl : lookupJ kvs k with
  | none => exact ⟨[], rfl⟩
  | some v =>
    rw [hl] at h
    cases v <;> simp [JValue.isObj] at h
    exact ⟨_, rfl⟩

/-! ### Dedup cache lemmas -/

/-- After stamping key `k`, an entry with key `k` and the new timestamp
exists. -/
theorem set_timestamp_mem_key (l : List (JValue × ℚ)) (k : JValue) (now : ℚ) :
    ∃ p ∈ set_timestamp l k now, (p.1 == k) = true ∧ p.2 = now := by
  unfold set_timestamp
  split
  · next hany =>
    rw [List.any_eq_true] at hany
    obtain ⟨e, he, hek⟩ := hany
    refine ⟨(e.1, now), ?_, hek, rfl⟩
    rw [List.mem_map]
    exact ⟨e, he, by simp [hek]⟩
  · exact ⟨(k, now), by simp, jvalue_beq_refl k, rfl⟩

/-- Stamping another key with the same timestamp preserves an existing
fresh entry for `k`. -/
theorem set_timestamp_preserves_mem (l : List (JValue × ℚ)) (k2 k : JValue) (now : ℚ)
    (h : ∃ p ∈ l, (p.1 == k) = true ∧ p.2 = now) :
    ∃ p ∈ set_timestamp l k2 now, (p.1 == k) = true ∧ p.2 = now := by
  obtain ⟨p, hp, hpk, hpt⟩ := h
  unfold set_timestamp
  split
  · by_cases hpk2 : (p.1 == k2) = true
    · exact ⟨(p.1, now), List.mem_map.mpr ⟨p, hp, by simp [hpk2]⟩, hpk, rfl⟩
    · refine ⟨p, List.mem_map.mpr ⟨p, hp, ?_⟩, hpk, hpt⟩
      simp [hpk2]
  · exact ⟨p, List.mem_append_left _ hp, hpk, hpt⟩

/-- After stamping key `k`, every entry with key `k` carries the new
timestamp. -/
theorem set_timestamp_all_now (l : List (JValue × ℚ)) (k : JValue) (now : ℚ) :
    ∀ p ∈ set_timestamp l k now, (p.1 == k) = true → p.2 = now := by
  intro p hp hpk
  unfold set_timestamp at hp
  split at hp
  · rw [List.mem_map] at hp
    obtain ⟨e, _, heq⟩ := hp
    by_cases hek : (e.1 == k) = true
    · rw [if_pos hek] at heq
      rw [← heq]
    · rw [if_neg hek] at heq
      subst heq
      exact absurd hpk hek
  · rw [List.mem_append] at hp
    rcases hp with hp | hp
    · next hany =>
      simp only [Bool.not_eq_true] at hany
      rw [List.any_eq_false] at hany
      exact absurd hpk (by simpa using hany p hp)
    · rw [List.mem_singleton] at hp
      rw [hp]

/-- Stamping another key with the same timestamp keeps every `k` entry at
that timestamp. -/
theorem set_timestamp_keeps_all_now (l : List (JValue × ℚ)) (k2 k : JValue) (now : ℚ)
    (h : ∀ p ∈ l, (p.1 == k) = true → p.2 = now) :
    ∀ p ∈ set_timestamp l k2 now, (p.1 == k) = true → p.2 = now := by
  intro p hp hpk
  unfold set_timestamp at hp
  split at hp
  · rw [List.mem_map] at hp
    obtain ⟨e, he, heq⟩ := hp
    by_cases hek : (e.1 == k2) = true
    · rw [if_pos hek] at heq
      rw [← heq]
    · rw [if_neg hek] at heq
      subst heq
      exact h e he hpk
  · rw [List.mem_append] at hp
    rcases hp with hp | hp
    · exact h p hp hpk
    · rw [List.mem_singleton] at hp
      rw [hp]

/-- Marking more keys preserves a fresh entry for `k`. -/
theorem fold_mark_preserves_mem (K : List JValue) (l : List (JValue × ℚ)) (k : JValue)
    (now : ℚ) (h : ∃ p ∈ l, (p.1 == k) = true ∧ p.2 = now) :
    ∃ p ∈ K.foldl (fun acc id => set_timestamp acc id now) l,
      (p.1 == k) = true ∧ p.2 = now := by
  induction K generalizing l with
  | nil => exact h
  | cons k0 K ih =>
    exact ih _ (set_timestamp_preserves_mem l k0 k now h)

/-- Marking more keys keeps every `k` entry at the marking timestamp. -/
theorem fold_mark_keeps_all_now (K : List JValue) (l : List (JValue × ℚ)) (k : JValue)
    (now : ℚ) (h : ∀ p ∈ l, (p.1 == k) = true → p.2 = now) :
    ∀ p ∈ K.foldl (fun acc id => set_timestamp acc id now) l,
      (p.1 == k) = true → p.2 = now := by
  induction K generalizing l with
  | nil => exact h
  | cons k0 K ih =>
    exact ih _ (set_timestamp_keeps_all_now l k0 k now h)

/-- After marking a key list, every key of the list has a fresh entry. -/
theorem fold_mark_mem (K : List JValue) (l : List (JValue × ℚ)) (k : JValue) (now : ℚ)
    (hk : k ∈ K) :
    ∃ p ∈ K.foldl (fun acc id => set_timestamp acc id now) l,
      (p.1 == k) = true ∧ p.2 = now := by
  induction K generalizing l with
  | nil => cases hk
  | cons k0 K ih =>
    rcases List.mem_cons.mp hk with hk0 | hk2
    · subst hk0
      exact fold_mark_preserves_mem K _ k now (set_timestamp_mem_key l k now)
    · exact ih _ hk2

/-- After marking a key list, every entry for a key of the list carries the
marking timestamp. -/
theorem fold_mark_all_now (K : List JValue) (l : List (JValue × ℚ)) (k : JValue) (now : ℚ)
    (hk : k ∈ K) :
    ∀ p ∈ K.foldl (fun acc id => set_timestamp acc id now) l,
      (p.1 == k) = true → p.2 = now := by
  induction K generalizing l with
  | nil => cases hk
  | cons k0 K ih =>
    rcases List.mem_cons.mp hk with hk0 | hk2
    · subst hk0
      exact fold_mark_keeps_all_now K _ k now (set_timestamp_all_now l k now)
    · exact ih _ hk2

/-- C5 counterexample.  For the empty key set the claim fails: marking []
then immediately checking [] returns false, because
`are_messages_already_processed` short-circuits on an empty key list. -/
theorem c5_dedup_counterexample :
    (are_messages_already_processed
      (mark_messages_as_processed ⟨3600, []⟩ [] 0) [] 0).1 = false := rfl

/-- C5 (amended).  For every non-empty key set K and non-negative TTL,
marking K and immediately checking K returns true; once the age strictly
exceeds the TTL, checking K returns false because the expired entries are
purged on read. -/
theorem c5_dedup_amended (s : DedupState) (K : List JValue) (t t2 : ℚ)
    (hK : K ≠ []) (httl : 0 ≤ s.ttl_seconds) :
    (are_messages_already_processed (mark_messages_as_processed s K t) K t).1 = true ∧
    (t2 - t > s.ttl_seconds →
      (are_messages_already_processed (mark_messages_as_processed s K t) K t2).1 = false) := by
  obtain ⟨k0, K2, rfl⟩ : ∃ k0 K2, K = k0 :: K2 := by
    cases K with
    | nil => exact absurd rfl hK
    | cons a b => exact ⟨a, b, rfl⟩
  have hne : ((k0 :: K2).isEmpty) = false := rfl
  constructor
  · obtain ⟨p, hp, hpk, hpt⟩ :=
      fold_mark_mem (k0 :: K2) s.processed_messages k0 t (List.mem_cons_self k0 K2)
    simp only [mark_messages_as_processed, are_messages_already_processed,
      cleanup_expired_entries, hne, Bool.false_eq_true, if_false, List.any_eq_true]
    refine ⟨k0, List.mem_cons_self _ _, ⟨p, ?_, hpk⟩⟩
    rw [List.mem_filter]
    refine ⟨hp, by rw [hpt]; simpa using httl⟩
  · intro hexp
    simp only [mark_messages_as_processed, are_messages_already_processed,
      cleanup_expired_entries, hne, Bool.false_eq_true, if_false, List.any_eq_false]
    intro k hk
    rw [Bool.not_eq_true, List.any_eq_false]
    intro p hp
    rw [List.mem_filter] at hp
    intro hpk
    have ht := fold_mark_all_now (k0 :: K2) s.processed_messages k t hk p hp.1 hpk
    have hkept := hp.2
    rw [ht] at hkept
    simp only [decide_eq_true_eq] at hkept
    linarith

/-- C5 witness: a concrete key marked at time 0 in a fresh 3600-second cache
is seen immediately and forgotten at time 5000. -/
theorem c5_dedup_amended_witness :
    (are_messages_already_processed
      (mark_messages_as_processed ⟨3600, []⟩ [.str "I1"] 0) [.str "I1"] 0).1 = true ∧
    (are_messages_already_processed
      (mark_messages_as_processed ⟨3600, []⟩ [.str "I1"] 0) [.str "I1"] 5000).1 = false := by
  have h := c5_dedup_amended ⟨3600, []⟩ [.str "I1"] 0 5000 (by simp) (by norm_num)
  exact ⟨h.1, h.2 (by norm_num)⟩

/-- C6.  The Notification Gate decides to notify exactly when the final
product count is positive, the intent is not off-topic and the confidence
is at least 0.6; the decision is a plain boolean, with no partial states. -/
theorem c6_notification_gate (final_products : List ProductCard) (i : IntentClassification) :
    send_notification final_products (some i) = true ↔
      (0 < final_products.length ∧ i.intent_type ≠ "off_topic" ∧
        (0.6 : ℚ) ≤ i.confidence) := by
  simp [send_notification]
  tauto

/-- C7.  A turn classified off-topic skips retrieval entirely (the result
does not depend on the search oracle) and ends with no products, the fixed
redirect message, and notified = false, regardless of confidence. -/
theorem c7_off_topic (classifier : Except Unit IntentClassification)
    (idea_llm : Except Unit ProductIdeas)
    (search : String → List Condition → Except Unit (List Hit)) (raw_query : String)
    (h : (classify_intent classifier raw_query).intent_type = "off_topic") :
    (run_agent_workflow classifier idea_llm search raw_query).final_products = [] ∧
    (run_agent_workflow classifier idea_llm search raw_query).response_message =
      off_topic_message ∧
    (run_agent_workflow classifier idea_llm search raw_query).notification_sent = false ∧
    ∀ search2, run_agent_workflow classifier idea_llm search raw_query =
      run_agent_workflow classifier idea_llm search2 raw_query := by
  simp [run_agent_workflow, route_after_intent, h]

/-- C7 witness: a concrete high-confidence off-topic turn. -/
theorem c7_off_topic_witness :
    (run_agent_workflow c7_classifier (Except.error ()) empty_search
      "new tires").final_products = [] ∧
    (run_agent_workflow c7_classifier (Except.error ()) empty_search
      "new tires").response_message = off_topic_message ∧
    (run_agent_workflow c7_classifier (Except.error ()) empty_search
      "new tires").notification_sent = false := by
  have h := c7_off_topic c7_classifier (Except.error ()) empty_search "new tires" rfl
  exact ⟨h.1, h.2.1, h.2.2.1⟩

/-- C8 counterexample.  With category present but equal to the empty string,
the filter adds no category predicate, so predicates are not added exactly
when a field is present. -/
theorem c8_filter_counterexample :
    c8_empty_category.category.isSome = true ∧
    build_filter c8_empty_category = [Condition.field_match "in_stock" (.boolean true)] := by
  exact ⟨rfl, rfl⟩

/-- C8 (amended).  The filter always requires in_stock; it adds an equality
predicate for category/brand/color/size exactly when the field is present
and non-empty; it adds a price range exactly when either bound is present
(is not None), copying both bounds verbatim — also when max is below min. -/
theorem c8_filter_amended (c : Constraints) :
    Condition.field_match "in_stock" (.boolean true) ∈ build_filter c ∧
    (∀ s, Condition.field_match "category" (.string s) ∈ build_filter c ↔
      c.category = some s ∧ s ≠ "") ∧
    (∀ s, Condition.field_match "brand" (.string s) ∈ build_filter c ↔
      c.brand = some s ∧ s ≠ "") ∧
    (∀ s, Condition.field_match "colors" (.string s) ∈ build_filter c ↔
      c.color = some s ∧ s ≠ "") ∧
    (∀ s, Condition.field_match "sizes" (.string s) ∈ build_filter c ↔
      c.size = some s ∧ s ≠ "") ∧
    (∀ g l, Condition.field_range "price" g l ∈ build_filter c ↔
      ((c.price_min.isSome ∨ c.price_max.isSome) ∧ g = c.price_min ∧ l = c.price_max)) := by
  obtain ⟨cat, pmin, pmax, col, sz, br, nts⟩ := c
  refine ⟨?_, fun s => ?_, fun s => ?_, fun s => ?_, fun s => ?_, fun g l => ?_⟩
  · simp only [build_filter]
    split_ifs <;> simp
  · simp only [build_filter]
    split_ifs <;> simp_all [strTruthy, List.mem_append] <;>
      rcases cat with _ | v <;> simp_all <;> aesop
  · simp only [build_filter]
    split_ifs <;> simp_all [strTruthy, List.mem_append] <;>
      rcases br with _ | v <;> simp_all <;> aesop
  · simp only [build_filter]
    split_ifs <;> simp_all [strTruthy, List.mem_append] <;>
      rcases col with _ | v <;> simp_all <;> aesop
  · simp only [build_filter]
    split_ifs <;> simp_all [strTruthy, List.mem_append] <;>
      rcases sz with _ | v <;> simp_all <;> aesop
  · simp only [build_filter]
    split_ifs <;> simp_all [strTruthy, List.mem_append]

/-- C8 witness: with max below min both bounds appear verbatim in the
range condition. -/
theorem c8_filter_amended_witness :
    Condition.field_range "price" (some 50) (some 10) ∈ build_filter c8_inverted := by
  exact ((c8_filter_amended c8_inverted).2.2.2.2.2 (some 50) (some 10)).mpr
    ⟨Or.inl rfl, rfl, rfl⟩

/-! ### Retrieval loop lemmas -/

/-- The merge loop never shrinks the accumulated products. -/
theorem merge_hits_len_mono (cs : Constraints) :
    ∀ (hits : List Hit) (seen : List String) (acc : List ProductCard),
      acc.length ≤ (merge_hits cs hits seen acc).2.length
  | [], _, _ => le_refl _
  | h :: rest, seen, acc => by
    simp only [merge_hits]
    split
    · exact merge_hits_len_mono cs rest seen acc
    · split
      · simp
      · calc acc.length
            ≤ (acc ++ [make_card cs h (h.payload.product_id.getD h.id)]).length := by simp
          _ ≤ _ := merge_hits_len_mono cs rest _ _

/-- The query loop never shrinks the accumulated products. -/
theorem search_loop_len_mono (cs : Constraints)
    (s : String → List Condition → Except Unit (List Hit)) (f : List Condition) :
    ∀ (qs : List String) (seen : List String) (acc : List ProductCard),
      acc.length ≤ (search_loop cs s f qs seen acc).2.length
  | [], _, _ => le_refl _
  | q :: rest, seen, acc => by
    simp only [search_loop]
    cases hs : s q f with
    | error e => exact search_loop_len_mono cs s f rest seen acc
    | ok hits =>
      calc acc.length ≤ (merge_hits cs hits seen acc).2.length :=
            merge_hits_len_mono cs hits seen acc
        _ ≤ _ := search_loop_len_mono cs s f rest _ _

/-- Starting from nothing, the query loop produces nothing exactly when
every query either fails or returns no candidates. -/
theorem search_loop_nil_iff (cs : Constraints)
    (s : String → List Condition → Except Unit (List Hit)) (f : List Condition) :
    ∀ qs : List String,
      ((search_loop cs s f qs [] []).2 = [] ↔
        ∀ q ∈ qs, s q f = .error () ∨ s q f = .ok [])
  | [] => by simp [search_loop]
  | q :: rest => by
    simp only [search_loop]
    cases hs : s q f with
    | error e =>
      cases e
      simp [hs, search_loop_nil_iff cs s f rest]
    | ok hits =>
      cases hits with
      | nil =>
        simp [hs, merge_hits, search_loop_nil_iff cs s f rest]
      | cons h t =>
        constructor
        · intro hempty
          exfalso
          have h1 : 1 ≤ (merge_hits cs (h :: t) [] []).2.length := by
            simp only [merge_hits, List.contains, List.elem_nil, Bool.false_eq_true, if_false]
            split
            · simp
            · calc (1 : ℕ)
                  = ([] ++ [make_card cs h (h.payload.product_id.getD h.id)]).length := by simp
                _ ≤ _ := merge_hits_len_mono cs t _ _
          have h2 := search_loop_len_mono cs s f rest
            (merge_hits cs (h :: t) [] []).1 (merge_hits cs (h :: t) [] []).2
          rw [hempty] at h2
          simp only [List.length_nil, Nat.le_zero] at h2
          omega
        · intro hall
          have hq := hall q (List.mem_cons_self q rest)
          rw [hs] at hq
          rcases hq with hq | hq <;> simp at hq

/-- C4 counterexample.  Retrieval returns empty even though the single plan
entry succeeded (with zero candidates) and the intent is not off-topic, so
"empty only if every entry failed or off-topic" does not hold as stated. -/
theorem c4_failure_skip_counterexample :
    (search_rag c4_intent none "x" empty_search).1 = [] ∧
    empty_search "solo" (build_filter c4_intent.inferred_constraints) = .ok [] ∧
    c4_intent.intent_type ≠ "off_topic" := by
  refine ⟨rfl, rfl, by decide⟩

/-- C4 (amended).  A failure embedding or querying for one plan entry is
caught and the entry is skipped; in a non-off-topic branch, retrieval
returns an empty result set exactly when each of the at most three evaluated
plan entries either failed or returned no candidates. -/
theorem c4_failure_skip_amended :
    (∀ (cs : Constraints) (s : String → List Condition → Except Unit (List Hit))
       (f : List Condition) (q : String) (rest seen : List String) (acc : List ProductCard),
      s q f = .error () →
        search_loop cs s f (q :: rest) seen acc = search_loop cs s f rest seen acc) ∧
    (∀ (intent : IntentClassification) (ideas : Option ProductIdeas) (rq : String)
       (s : String → List Condition → Except Unit (List Hit)) (qs : List String),
      selected_queries intent ideas rq = some qs →
        ((search_rag intent ideas rq s).1 = [] ↔
          ∀ q ∈ qs.take 3,
            s q (build_filter intent.inferred_constraints) = .error () ∨
            s q (build_filter intent.inferred_constraints) = .ok [])) := by
  constructor
  · intro cs s f q rest seen acc h
    simp [search_loop, h]
  · intro intent ideas rq s qs hsel
    simp only [search_rag, hsel]
    exact search_loop_nil_iff intent.inferred_constraints s
      (build_filter intent.inferred_constraints) (qs.take 3)

/-- C4 witness: a failing first query is skipped, leaving the loop equal to
the loop over the remaining queries. -/
theorem c4_failure_skip_amended_witness :
    search_loop {} err_search [] ["a", "b"] [] [] =
      search_loop {} err_search [] ["b"] [] [] := by
  exact c4_failure_skip_amended.1 {} err_search [] "a" ["b"] [] [] rfl

/-! ### Dedup key extraction lemmas -/

/-- The gate extraction loop collects exactly the raw internal message ids
of the items (one key at most per message, unprefixed). -/
theorem extractIdsLoop_eq :
    ∀ items : List JValue, items.all JValue.isObj = true →
      extractIdsLoop items = .ok (items.filterMap internal_id_of)
  | [], _ => rfl
  | item :: rest, h => by
    rw [List.all_cons, Bool.and_eq_true] at h
    obtain ⟨kvs, rfl⟩ : ∃ kvs, item = .obj kvs := by
      cases item <;> first | exact ⟨_, rfl⟩ | simp_all [JValue.isObj]
    simp only [extractIdsLoop, jGetD, except_bind_ok,
      extractIdsLoop_eq rest h.2, List.filterMap_cons]
    cases hmd : (lookupJ kvs "message").getD (.obj []) <;>
        simp only [internal_id_of, hmd] <;>
      first
        | rfl
        | (split <;> rfl)

/-- The class extraction loop collects the prefixed `wa:`/`kapso:` keys of
the items, up to two per message. -/
theorem dedupExtractLoop_eq :
    ∀ items : List JValue,
      items.all (fun i => i.isObj && message_shape_ok i) = true →
      dedupExtractLoop items = .ok ((items.map prefixed_keys_of).flatten)
  | [], _ => rfl
  | item :: rest, h => by
    rw [List.all_cons, Bool.and_eq_true] at h
    obtain ⟨h1, h2⟩ := h
    rw [Bool.and_eq_true] at h1
    obtain ⟨kvs, rfl⟩ : ∃ kvs, item = .obj kvs := by
      cases item <;> first | exact ⟨_, rfl⟩ | simp_all [JValue.isObj]
    have hmsg : ((lookupJ kvs "message").getD (.obj [])).isObj = true := by
      have hm := h1.2
      simp only [message_shape_ok, objOrAbsent] at hm
      cases hl : lookupJ kvs "message" with
      | none => simp [hl, JValue.isObj]
      | some v => rw [hl] at hm; simpa using hm
    obtain ⟨mvs, hmvs⟩ : ∃ mvs, (lookupJ kvs "message").getD (.obj []) = .obj mvs := by
      cases hmd : (lookupJ kvs "message").getD (.obj []) <;>
        first | exact ⟨_, rfl⟩ | (rw [hmd] at hmsg; simp [JValue.isObj] at hmsg)
    simp only [dedupExtractLoop, jGetD, hmvs, except_bind_ok, jGet,
      dedupExtractLoop_eq rest h2, List.map_cons, List.flatten_cons,
      prefixed_keys_of]
    rfl

/-- C3 counterexample.  On a webhook carrying both a provider id W1 and an
internal id I1, the extraction that gates processing yields the single
unprefixed raw id I1 — not the `wa:`/`kapso:` keys, which only the unused
class method derives — and the gate marks exactly that unprefixed key. -/
theorem c3_gate_keys_counterexample :
    extract_message_ids_from_webhook c3_webhook = .ok [.str "I1"] ∧
    MessageDeduplicator.extract_message_ids c3_webhook = ["wa:W1", "kapso:I1"] ∧
    (use_kapso c3_webhook ⟨3600, []⟩ 0).2.processed_messages = [(.str "I1", 0)] := by
  exact ⟨rfl, rfl, rfl⟩

/-- C3 (amended).  The extraction that gates processing
(`extract_message_ids_from_webhook`) derives at most one key per message:
the raw internal id, unprefixed; the prefixed one-or-two-key derivation
(`wa:` provider id, `kapso:` internal id) lives on
`MessageDeduplicator.extract_message_ids`, which the gate never calls. -/
theorem c3_gate_keys_amended (kvs : List (String × JValue)) (items : List JValue)
    (hdata : lookupJ kvs "data" = some (.arr items))
    (hshape : items.all (fun i => i.isObj && message_shape_ok i) = true) :
    extract_message_ids_from_webhook (.obj kvs) = .ok (items.filterMap internal_id_of) ∧
    MessageDeduplicator.extract_message_ids (.obj kvs) =
      (items.map prefixed_keys_of).flatten := by
  have hobj : items.all JValue.isObj = true := by
    rw [List.all_eq_true] at hshape ⊢
    intro i hi
    exact (Bool.and_eq_true _ _ |>.mp (hshape i hi)).1
  constructor
  · simp only [extract_message_ids_from_webhook, jGetD, hdata, except_bind_ok,
      Option.getD_some, toIter]
    exact extractIdsLoop_eq items hobj
  · simp only [MessageDeduplicator.extract_message_ids, jGetD, hdata, except_bind_ok,
      Option.getD_some, toIter, dedupExtractLoop_eq items hshape]

/-- C3 witness: the two extractions evaluated on the concrete two-id
webhook. -/
theorem c3_gate_keys_amended_witness :
    extract_message_ids_from_webhook (.obj c3_kvs) =
      .ok (c3_data_items.filterMap internal_id_of) ∧
    MessageDeduplicator.extract_message_ids (.obj c3_kvs) =
      (c3_data_items.map prefixed_keys_of).flatten := by
  exact c3_gate_keys_amended c3_kvs c3_data_items rfl rfl

/-! ### Normalizer lemmas -/

/-- `phone_number_id` derivation succeeds on dict item and conversation. -/
theorem pniOf_ok (kvs cvs : List (String × JValue)) :
    ∃ v, pniOf (.obj kvs) (.obj cvs) = .ok v := by
  simp only [pniOf, jGet, jGetD, except_bind_ok]
  split
  · exact ⟨_, rfl⟩
  · exact ⟨_, rfl⟩

/-- The conversation-id backfill succeeds and returns a dict when the item,
the conversation and the batch_info field are dicts. -/
theorem convFixup_ok (kvs cvs bvs : List (String × JValue))
    (hbvs : (lookupJ kvs "batch_info").getD (.obj []) = .obj bvs) :
    ∃ out, convFixup (.obj kvs) (.obj cvs) = .ok (.obj out) := by
  simp only [convFixup, pyIn, jGet, jGetD, jSet, except_bind_ok, hbvs]
  split
  · split
    · exact ⟨_, rfl⟩
    · exact ⟨_, rfl⟩
  · exact ⟨_, rfl⟩

/-- The whatsapp_config fixup succeeds and returns a dict when the config is
a dict. -/
theorem wcdFixup_ok (wvs : List (String × JValue)) (pni : JValue) :
    ∃ out, wcdFixup (.obj wvs) pni = .ok (.obj out) := by
  simp only [wcdFixup]
  split
  · simp only [pyIn, jSet, except_bind_ok]
    split
    · exact ⟨_, rfl⟩
    · exact ⟨_, rfl⟩
  · simp only [pyIn, jSet, except_bind_ok]
    split
    · exact ⟨_, rfl⟩
    · exact ⟨_, rfl⟩

/-- The whatsapp_config_id fallback succeeds and returns a dict when the
conversation and the config are dicts. -/
theorem wciFixup_ok (cvs wvs : List (String × JValue)) (pni : JValue) :
    ∃ out, wciFixup (.obj cvs) (.obj wvs) pni = .ok (.obj out) := by
  simp only [wciFixup, pyIn, jGet, jGetD, jSet, except_bind_ok]
  split
  · split
    · exact ⟨_, rfl⟩
    · split
      · exact ⟨_, rfl⟩
      · exact ⟨_, rfl⟩
  · exact ⟨_, rfl⟩

/-- On a good item the normalizer loop body succeeds and produces an entry
with exactly the five canonical keys. -/
theorem normalizeItem_ok (item : JValue) (h : good_item item = true) :
    ∃ out, normalizeItem item = .ok out ∧
      objKeys out = ["message", "conversation", "whatsapp_config",
        "is_new_conversation", "phone_number_id"] := by
  obtain ⟨kvs, rfl⟩ : ∃ kvs, item = .obj kvs := by
    cases item <;> first | exact ⟨_, rfl⟩ | simp_all [good_item]
  simp only [good_item, Bool.and_eq_true] at h
  obtain ⟨⟨hc, hw⟩, hb⟩ := h
  obtain ⟨cvs, hcvs⟩ := getD_obj_of_objOrAbsent kvs "conversation" hc
  obtain ⟨wvs, hwvs⟩ := getD_obj_of_objOrAbsent kvs "whatsapp_config" hw
  obtain ⟨bvs, hbvs⟩ := getD_obj_of_objOrAbsent kvs "batch_info" hb
  obtain ⟨pni, hpni⟩ := pniOf_ok kvs cvs
  obtain ⟨cvs2, hcvs2⟩ := convFixup_ok kvs cvs bvs hbvs
  obtain ⟨wvs2, hwvs2⟩ := wcdFixup_ok wvs pni
  obtain ⟨cvs3, hcvs3⟩ := wciFixup_ok cvs2 wvs2 pni
  refine ⟨.obj [("message", normalizeMessageFields
      (if ((lookupJ kvs "message").getD (.obj [])).isObj = true then
        (lookupJ kvs "message").getD (.obj []) else .obj [])),
    ("conversation", .obj cvs3), ("whatsapp_config", .obj wvs2),
    ("is_new_conversation", (lookupJ kvs "is_new_conversation").getD (.bool false)),
    ("phone_number_id", pni)], ?_, rfl⟩
  simp only [normalizeItem, jGetD, except_bind_ok, hcvs, hwvs, hpni, hcvs2,
    hwvs2, hcvs3]
  rfl

/-- All-good data lists normalize to one well-formed entry per item. -/
theorem normalizeItems_ok (items : List JValue) (h : items.all good_item = true) :
    ∃ l, normalizeItems items = .ok l ∧ l.length = items.length ∧
      l.all (fun e => normalized_shape (Except.ok e)) = true := by
  induction items with
  | nil => exact ⟨[], rfl, rfl, rfl⟩
  | cons item rest ih =>
    rw [List.all_cons, Bool.and_eq_true] at h
    obtain ⟨out, hout, hkeys⟩ := normalizeItem_ok item h.1
    obtain ⟨l, hl, hlen, hall⟩ := ih h.2
    refine ⟨out :: l, ?_, by simp [hlen], ?_⟩
    · simp only [normalizeItems, hout, hl, except_bind_ok]
      rfl
    · rw [List.all_cons, hall, Bool.and_true]
      simp [normalized_shape, hkeys]

/-- C2 counterexample.  A non-mapping item in the data list makes the whole
call raise (AttributeError) instead of being skipped; and a perfectly
parseable mapping payload with an empty data list also returns the empty
list, so "empty only when the payload is not a mapping" fails too. -/
theorem c2_normalizer_counterexample :
    normalize_kapso_webhook c2_bad_item_payload = .error PyErr.attributeError ∧
    normalize_kapso_webhook c2_empty_data_payload = .ok [] ∧
    c2_empty_data_payload.isObj = true := by
  exact ⟨rfl, rfl, rfl⟩

/-- C2 (amended).  On a mapping payload whose data items are mappings (with
mapping conversation/whatsapp_config/batch_info fields when present), the
Normalizer never raises and returns one well-formed normalized entry per
item, missing optional fields notwithstanding; an empty data list yields the
empty list.  A non-mapping item, however, raises instead of being skipped
(see the counterexample). -/
theorem c2_normalizer_amended (kvs : List (String × JValue)) (items : List JValue)
    (hdata : lookupJ kvs "data" = some (.arr items))
    (hgood : items.all good_item = true) :
    (normalize_kapso_webhook (.obj kvs)).map
      (fun l => (l.length, l.all (fun e => normalized_shape (Except.ok e)))) =
      .ok (items.length, true) := by
  have hkvs : kvs ≠ [] := by
    intro hnil
    rw [hnil, lookupJ_nil] at hdata
    cases hdata
  have htr : truthy (.obj kvs) = true := by
    simp [truthy, List.isEmpty_iff, hkvs]
  simp only [normalize_kapso_webhook, htr, Bool.not_true, Bool.false_eq_true, if_false,
    jGetD, hdata, Option.getD_some, except_bind_ok]
  cases items with
  | nil => rfl
  | cons i rest =>
    have htr2 : truthy (.arr (i :: rest)) = true := by simp [truthy]
    simp only [htr2, Bool.not_true, Bool.false_eq_true, if_false, toIter, except_bind_ok]
    obtain ⟨l, hl, hlen, hall⟩ := normalizeItems_ok (i :: rest) hgood
    rw [hl]
    simp [Except.map, hlen, hall]

/-- C2 witness: a raw-format single-message payload missing every optional
field normalizes to one well-formed entry. -/
theorem c2_normalizer_amended_witness :
    (normalize_kapso_webhook (.obj c2_good_kvs)).map
      (fun l => (l.length, l.all (fun e => normalized_shape (Except.ok e)))) =
      .ok (1, true) := by
  exact c2_normalizer_amended c2_good_kvs c2_good_items rfl rfl

/-! ### Response handler lemmas -/

/-- A droppable entry contributes nothing to the combined message. -/
theorem droppable_msgPart (d : JValue) (h : droppable d = true) :
    msgPart d = .ok none := by
  unfold droppable at h
  split at h <;> try cases h
  split at h <;> try cases h
  split at h <;> try cases h
  split at h <;> try cases h
  rename_i x3 kvs x2 mvs hmsg x1 t hmt x0 c hct
  simp only [msgPart, jGetD, jGet, except_bind_ok, hmsg, hmt, hct, pyLower, truthy]
  rw [Bool.or_eq_true, decide_eq_true_eq, decide_eq_true_eq] at h
  rcases h with h | h
  · have htype : (strLower t == "reaction" || strLower t == "sticker" ||
        strLower t == "image") = true := by
      rcases h with h | h | h <;> simp [h]
    split <;> simp [pyStrip, except_bind_ok, htype, pure, Except.pure]
  · split
    · simp only [pyStrip, except_bind_ok, h]
      split
      · rfl
      · simp
        rfl
    · split
      · rfl
      · simp
        rfl

/-- A batch of contribution-free entries combines to no parts. -/
theorem collectParts_all_dropped (l : List JValue)
    (h : ∀ d ∈ l, msgPart d = .ok none) : collectParts l = .ok [] := by
  induction l with
  | nil => rfl
  | cons d ds ih =>
    simp only [collectParts, h d (List.mem_cons_self d ds), except_bind_ok,
      ih (fun x hx => h x (List.mem_cons_of_mem d hx))]
    rfl

/-- C10.  Messages whose type is reaction, sticker or image, or whose
content is empty after stripping, are dropped before the agent is
consulted; when every message of the batch is dropped, the handler returns
a success result without invoking the agent and without sending any
outbound reply. -/
theorem c10_filtered_batch (d : JValue) (ds : List JValue) (env_is_staging : Bool)
    (agentFn : String → Except Unit ConversationalResponse)
    (hhead : header_ok d = true)
    (hdrop : (d :: ds).all droppable = true) :
    handle_response (d :: ds) env_is_staging agentFn =
      .ok { status := "success", message := "Mensajes sin contenido omitidos",
            agent_invoked := false, replies := [] } := by
  obtain ⟨kvs, rfl⟩ : ∃ kvs, d = .obj kvs := by
    cases d <;> first | exact ⟨_, rfl⟩ | simp_all [header_ok]
  simp only [header_ok, Bool.and_eq_true] at hhead
  obtain ⟨cvs, hcvs⟩ := getD_obj_of_objOrAbsent kvs "conversation" hhead.1
  obtain ⟨wvs, hwvs⟩ := getD_obj_of_objOrAbsent kvs "whatsapp_config" hhead.2
  have hcoll : collectParts (JValue.obj kvs :: ds) = .ok [] := by
    apply collectParts_all_dropped
    intro x hx
    apply droppable_msgPart
    rw [List.all_eq_true] at hdrop
    exact hdrop x hx
  simp only [handle_response, jGetD, jGet, except_bind_ok, hcvs, hwvs, hcoll]
  split
  · rfl
  · rfl

/-- C10 witness: a one-sticker batch returns the early no-content success
without any agent call or reply. -/
theorem c10_filtered_batch_witness :
    handle_response [c10_item] false (fun _ => .error ()) =
      .ok { status := "success", message := "Mensajes sin contenido omitidos",
            agent_invoked := false, replies := [] } := by
  exact c10_filtered_batch c10_item [] false (fun _ => .error ()) rfl (by decide)
